import Mathlib

/-!
Shallow embedding of the ALICE Font CDN core engine
(services/core-engine/src/main.rs): request validation, the deterministic
size-estimation model for compression and subsetting, the static font
catalog, and the analyze classifier. Floating-point arithmetic of the
source is modelled exactly over ℚ; Rust u8/usize are modelled as Nat;
handlers returning `Result<Json<T>, (StatusCode, String)>` are modelled as
`Except String T` (every error in the source carries BAD_REQUEST, so the
status code is omitted).
-/

namespace FontEngine

/-- The accepted font formats, in source order (`valid_formats`). -/
def validFormats : List String := ["woff2", "woff", "otf", "ttf"]

/-- Rust `str::to_lowercase()`, embedded as a character-wise case map
(the identifiers of this model are one-to-one under lowercasing). -/
def toLowerStr (s : String) : String := String.mk (s.toList.map Char.toLower)

/-- URL slug: lowercase identifier with spaces replaced by hyphens, as in
`req.font_name.to_lowercase().replace(' ', "-")`; the single-character
replacement is a character-wise map. -/
def slug (s : String) : String :=
  String.mk ((toLowerStr s).toList.map (fun c => if c = ' ' then '-' else c))

/-- Rejection message for an unsupported format value. -/
def formatErr (f : String) : String :=
  "unsupported format '" ++ f ++ "'; valid: woff2, woff, otf, ttf"

/-- The blank-identifier test `font_name.trim().is_empty()`: a string
trims to the empty string exactly when every one of its characters is
whitespace, which is how the check is embedded here. -/
def isBlank (s : String) : Bool := s.toList.all (fun c => c.isWhitespace)

/-- Input of the compress handler. `quality` is a Rust u8. -/
structure CompressRequest where
  font_name : String
  format : String
  quality : Nat
deriving DecidableEq, Repr

/-- Output of the compress handler. -/
structure CompressResponse where
  font_name : String
  format : String
  quality : Nat
  original_size_kb : ℚ
  compressed_size_kb : ℚ
  ratio : ℚ
  download_url : String
deriving DecidableEq, Repr

/-- The per-format base coefficient from the `match` inside `compress`. -/
def ratio_base (format : String) : ℚ :=
  if format = "woff2" then 35/100
  else if format = "woff" then 55/100
  else if format = "otf" ∨ format = "ttf" then 90/100
  else 80/100

/-- The `compress` handler: format, quality and identifier validation in
source order, then the closed-form size model. -/
def compress (req : CompressRequest) : Except String CompressResponse :=
  if req.format ∉ validFormats then
    Except.error (formatErr req.format)
  else if 100 < req.quality then
    Except.error "quality must be 0-100"
  else if isBlank req.font_name then
    Except.error "font_name is required"
  else
    let original_size_kb : ℚ := 280
    let rb : ℚ := ratio_base req.format
    let quality_factor : ℚ := 1/2 + ((req.quality : ℚ) / 100) * (1/2)
    let compressed_size_kb : ℚ := original_size_kb * rb * quality_factor
    Except.ok
      { font_name := req.font_name
        format := req.format
        quality := req.quality
        original_size_kb := original_size_kb
        compressed_size_kb := compressed_size_kb
        ratio := original_size_kb / compressed_size_kb
        download_url :=
          "/cdn/fonts/" ++ slug req.font_name ++ "/" ++ slug req.font_name
            ++ "." ++ req.format }

/-- Input of the subset handler. -/
structure SubsetRequest where
  font_name : String
  characters : String
  format : String
deriving DecidableEq, Repr

/-- Output of the subset handler. -/
structure SubsetResponse where
  font_name : String
  format : String
  character_count : Nat
  original_glyph_count : Nat
  subset_glyph_count : Nat
  original_size_kb : ℚ
  subset_size_kb : ℚ
  download_url : String
deriving DecidableEq, Repr

/-- The `subset` handler: format and identifier validation in source
order, then the subset size model. `String.length` counts Unicode scalar
values, matching Rust `chars().count()`. -/
def subset (req : SubsetRequest) : Except String SubsetResponse :=
  if req.format ∉ validFormats then
    Except.error (formatErr req.format)
  else if isBlank req.font_name then
    Except.error "font_name is required"
  else
    let character_count : Nat := max req.characters.length 1
    let original_glyph_count : Nat := 8500
    let subset_glyph_count : Nat := min character_count original_glyph_count
    let original_size_kb : ℚ := 280
    let subset_ratio : ℚ := (subset_glyph_count : ℚ) / (original_glyph_count : ℚ)
    let format_ratio : ℚ := if req.format = "woff2" then 35/100 else 55/100
    Except.ok
      { font_name := req.font_name
        format := req.format
        character_count := character_count
        original_glyph_count := original_glyph_count
        subset_glyph_count := subset_glyph_count
        original_size_kb := original_size_kb
        subset_size_kb := original_size_kb * subset_ratio * format_ratio
        download_url :=
          "/cdn/fonts/" ++ slug req.font_name ++ "/subset." ++ req.format }

/-- One record of the static catalog. -/
structure FontCatalogEntry where
  id : String
  family : String
  variant : String
  formats : List String
  size_kb : ℚ
  glyph_count : Nat
  unicode_ranges : List String
  license : String
deriving DecidableEq, Repr

/-- The `catalog` handler: a constant four-entry list, returned verbatim. -/
def catalog : List FontCatalogEntry :=
  [ { id := "inter"
      family := "Inter"
      variant := "Regular"
      formats := ["woff2", "woff", "ttf"]
      size_kb := 94
      glyph_count := 3990
      unicode_ranges := ["U+0000-00FF", "U+0100-024F"]
      license := "OFL-1.1" }
  , { id := "noto-sans-jp"
      family := "Noto Sans JP"
      variant := "Regular"
      formats := ["woff2", "otf"]
      size_kb := 4200
      glyph_count := 22080
      unicode_ranges := ["U+0020-007E", "U+3000-9FFF"]
      license := "OFL-1.1" }
  , { id := "roboto"
      family := "Roboto"
      variant := "Bold"
      formats := ["woff2", "woff", "ttf"]
      size_kb := 68
      glyph_count := 1294
      unicode_ranges := ["U+0000-00FF"]
      license := "Apache-2.0" }
  , { id := "fira-code"
      family := "Fira Code"
      variant := "Regular"
      formats := ["woff2", "ttf"]
      size_kb := 132
      glyph_count := 1617
      unicode_ranges := ["U+0020-007E", "U+FB00-FB06"]
      license := "OFL-1.1" } ]

/-- Input of the analyze handler. -/
structure AnalyzeRequest where
  font_name : String
deriving DecidableEq, Repr

/-- Output of the analyze handler. -/
structure AnalyzeResponse where
  font_name : String
  glyph_count : Nat
  format : String
  size_kb : ℚ
  unicode_ranges : List String
  has_variable_axes : Bool
  color_palettes : Nat
  opentype_features : List String
deriving DecidableEq, Repr

/-- Substring test, matching Rust `str::contains(&str)`. -/
def strContains (s pat : String) : Bool := decide (pat.toList <:+: s.toList)

/-- A classifier descriptor: glyph count, format, size, variable-axes
flag, palette count, feature tags — the tuple bound by the `match` in
`analyze`. -/
structure Descriptor where
  glyph_count : Nat
  format : String
  size_kb : ℚ
  variable_axes : Bool
  palettes : Nat
  features : List String
deriving DecidableEq, Repr

/-- The guarded `match` on the lowercased name inside `analyze`. -/
def classify (lname : String) : Descriptor :=
  if strContains lname "noto" then
    { glyph_count := 22080, format := "otf", size_kb := 4200
      variable_axes := false, palettes := 0
      features := ["kern", "liga", "calt"] }
  else if strContains lname "fira" then
    { glyph_count := 1617, format := "ttf", size_kb := 132
      variable_axes := false, palettes := 0
      features := ["kern", "liga", "dlig", "calt"] }
  else if strContains lname "inter" then
    { glyph_count := 3990, format := "otf", size_kb := 94
      variable_axes := true, palettes := 0
      features := ["kern", "ss01", "cv01"] }
  else
    { glyph_count := 1200, format := "ttf", size_kb := 80
      variable_axes := false, palettes := 0
      features := ["kern"] }

/-- The `analyze` handler: identifier validation, then the classifier. -/
def analyze (req : AnalyzeRequest) : Except String AnalyzeResponse :=
  if isBlank req.font_name then
    Except.error "font_name is required"
  else
    let d : Descriptor := classify (toLowerStr req.font_name)
    Except.ok
      { font_name := req.font_name
        glyph_count := d.glyph_count
        format := d.format
        size_kb := d.size_kb
        unicode_ranges := ["U+0000-00FF", "U+0100-024F"]
        has_variable_axes := d.variable_axes
        color_palettes := d.palettes
        opentype_features := d.features }

/-! ### Shared helper lemmas -/

lemma ratio_base_woff2 : ratio_base "woff2" = 35/100 := by
  rw [ratio_base, if_pos rfl]

lemma ratio_base_woff : ratio_base "woff" = 55/100 := by
  rw [ratio_base, if_neg (by decide), if_pos rfl]

lemma ratio_base_otf : ratio_base "otf" = 90/100 := by
  rw [ratio_base, if_neg (by decide), if_neg (by decide), if_pos (Or.inl rfl)]

lemma ratio_base_ttf : ratio_base "ttf" = 90/100 := by
  rw [ratio_base, if_neg (by decide), if_neg (by decide), if_pos (Or.inr rfl)]

lemma ratio_base_mem (f : String) (hf : f ∈ validFormats) :
    0 < ratio_base f ∧ ratio_base f ≤ 9/10 := by
  simp only [validFormats, List.mem_cons, List.not_mem_nil, or_false] at hf
  rcases hf with h | h | h | h <;> subst h
  · rw [ratio_base_woff2]; norm_num
  · rw [ratio_base_woff]; norm_num
  · rw [ratio_base_otf]; norm_num
  · rw [ratio_base_ttf]; norm_num

lemma compress_ok (req : CompressRequest)
    (hf : req.format ∈ validFormats) (hq : req.quality ≤ 100)
    (hn : isBlank req.font_name = false) :
    compress req = Except.ok
      { font_name := req.font_name
        format := req.format
        quality := req.quality
        original_size_kb := 280
        compressed_size_kb :=
          280 * ratio_base req.format * (1/2 + ((req.quality : ℚ) / 100) * (1/2))
        ratio :=
          280 / (280 * ratio_base req.format * (1/2 + ((req.quality : ℚ) / 100) * (1/2)))
        download_url :=
          "/cdn/fonts/" ++ slug req.font_name ++ "/" ++ slug req.font_name
            ++ "." ++ req.format } := by
  rw [compress, if_neg (not_not_intro hf), if_neg (not_lt.mpr hq),
    if_neg (by simp [hn])]

lemma subset_ok (req : SubsetRequest)
    (hf : req.format ∈ validFormats) (hn : isBlank req.font_name = false) :
    subset req = Except.ok
      { font_name := req.font_name
        format := req.format
        character_count := max req.characters.length 1
        original_glyph_count := 8500
        subset_glyph_count := min (max req.characters.length 1) 8500
        original_size_kb := 280
        subset_size_kb :=
          280 * (((min (max req.characters.length 1) 8500 : Nat) : ℚ)
              / ((8500 : Nat) : ℚ))
            * (if req.format = "woff2" then 35/100 else 55/100)
        download_url :=
          "/cdn/fonts/" ++ slug req.font_name ++ "/subset." ++ req.format } := by
  rw [subset, if_neg (not_not_intro hf), if_neg (by simp [hn])]

lemma analyze_ok (req : AnalyzeRequest) (hn : isBlank req.font_name = false) :
    analyze req = Except.ok
      { font_name := req.font_name
        glyph_count := (classify (toLowerStr req.font_name)).glyph_count
        format := (classify (toLowerStr req.font_name)).format
        size_kb := (classify (toLowerStr req.font_name)).size_kb
        unicode_ranges := ["U+0000-00FF", "U+0100-024F"]
        has_variable_axes := (classify (toLowerStr req.font_name)).variable_axes
        color_palettes := (classify (toLowerStr req.font_name)).palettes
        opentype_features := (classify (toLowerStr req.font_name)).features } := by
  rw [analyze, if_neg (by simp [hn])]

lemma classify_noto (s : String) (h : strContains s "noto" = true) :
    classify s =
      { glyph_count := 22080, format := "otf", size_kb := 4200
        variable_axes := false, palettes := 0
        features := ["kern", "liga", "calt"] } := by
  rw [classify, if_pos h]

lemma classify_fira (s : String) (h1 : strContains s "noto" = false)
    (h2 : strContains s "fira" = true) :
    classify s =
      { glyph_count := 1617, format := "ttf", size_kb := 132
        variable_axes := false, palettes := 0
        features := ["kern", "liga", "dlig", "calt"] } := by
  rw [classify, if_neg (by simp [h1]), if_pos h2]

lemma classify_inter (s : String) (h1 : strContains s "noto" = false)
    (h2 : strContains s "fira" = false) (h3 : strContains s "inter" = true) :
    classify s =
      { glyph_count := 3990, format := "otf", size_kb := 94
        variable_axes := true, palettes := 0
        features := ["kern", "ss01", "cv01"] } := by
  rw [classify, if_neg (by simp [h1]), if_neg (by simp [h2]), if_pos h3]

lemma classify_default (s : String) (h1 : strContains s "noto" = false)
    (h2 : strContains s "fira" = false) (h3 : strContains s "inter" = false) :
    classify s =
      { glyph_count := 1200, format := "ttf", size_kb := 80
        variable_axes := false, palettes := 0
        features := ["kern"] } := by
  rw [classify, if_neg (by simp [h1]), if_neg (by simp [h2]), if_neg (by simp [h3])]

/-! ### Claims -/

/-- C1: for every compress request with format among woff2, woff, otf, ttf,
quality in [0,100] and a non-blank identifier, the response has
original_size_kb = 280, compressed_size_kb = 280 · ratio_base(format) ·
(1/2 + quality/200), and ratio = 280 / compressed_size_kb, where
ratio_base maps woff2 to 0.35, woff to 0.55, and otf or ttf to 0.90. -/
theorem C1_compress_size_model (req : CompressRequest)
    (hf : req.format ∈ validFormats) (hq : req.quality ≤ 100)
    (hn : isBlank req.font_name = false) :
    (∃ resp : CompressResponse, compress req = Except.ok resp ∧
        resp.original_size_kb = 280 ∧
        resp.compressed_size_kb
          = 280 * ratio_base req.format * (1/2 + (req.quality : ℚ) / 200) ∧
        resp.ratio = 280 / resp.compressed_size_kb) ∧
      ratio_base "woff2" = 35/100 ∧ ratio_base "woff" = 55/100 ∧
      ratio_base "otf" = 90/100 ∧ ratio_base "ttf" = 90/100 := by
  refine ⟨⟨_, compress_ok req hf hq hn, rfl, ?_, rfl⟩,
    ratio_base_woff2, ratio_base_woff, ratio_base_otf, ratio_base_ttf⟩
  show (280 : ℚ) * ratio_base req.format * (1/2 + ((req.quality : ℚ) / 100) * (1/2))
      = 280 * ratio_base req.format * (1/2 + (req.quality : ℚ) / 200)
  ring

/-- C1 witness: the theorem applied at font "Open Sans", format woff2,
quality 80. -/
theorem C1_compress_size_model_witness :
    ∃ resp : CompressResponse,
      compress { font_name := "Open Sans", format := "woff2", quality := 80 }
          = Except.ok resp ∧
        resp.original_size_kb = 280 ∧
        resp.compressed_size_kb = 280 * ratio_base "woff2" * (1/2 + (80 : ℚ) / 200) ∧
        resp.ratio = 280 / resp.compressed_size_kb :=
  (C1_compress_size_model
    { font_name := "Open Sans", format := "woff2", quality := 80 }
    (by decide) (by decide) (by decide)).1

/-- C3: validation rules are applied in a fixed order with the first
failure winning: for compress, an invalid format is rejected (with the
message naming the value and the valid set) before quality, quality > 100
before the identifier, and a blank identifier last; subset checks format
then identifier; analyze checks the identifier. A request with both an
invalid format and a blank font_name yields the format message. -/
theorem C3_validation_order :
    (∀ req : CompressRequest, req.format ∉ validFormats →
        compress req = Except.error (formatErr req.format)) ∧
    (∀ req : CompressRequest, req.format ∈ validFormats → 100 < req.quality →
        compress req = Except.error "quality must be 0-100") ∧
    (∀ req : CompressRequest, req.format ∈ validFormats → req.quality ≤ 100 →
        isBlank req.font_name = true →
        compress req = Except.error "font_name is required") ∧
    (∀ req : SubsetRequest, req.format ∉ validFormats →
        subset req = Except.error (formatErr req.format)) ∧
    (∀ req : SubsetRequest, req.format ∈ validFormats →
        isBlank req.font_name = true →
        subset req = Except.error "font_name is required") ∧
    (∀ req : AnalyzeRequest, isBlank req.font_name = true →
        analyze req = Except.error "font_name is required") ∧
    compress { font_name := " ", format := "ttc", quality := 50 }
        = Except.error "unsupported format 'ttc'; valid: woff2, woff, otf, ttf" := by
  refine ⟨?_, ?_, ?_, ?_, ?_, ?_, ?_⟩
  · intro req h
    rw [compress, if_pos h]
  · intro req hf hq
    rw [compress, if_neg (not_not_intro hf), if_pos hq]
  · intro req hf hq hn
    rw [compress, if_neg (not_not_intro hf), if_neg (not_lt.mpr hq), if_pos hn]
  · intro req h
    rw [subset, if_pos h]
  · intro req hf hn
    rw [subset, if_neg (not_not_intro hf), if_pos hn]
  · intro req hn
    rw [analyze, if_pos hn]
  · rw [compress, if_pos (by decide : ("ttc" : String) ∉ validFormats)]
    rfl

/-- C3 witness: a compress request with both an invalid format and a
blank font_name is rejected with the format message. -/
theorem C3_validation_order_witness :
    compress { font_name := "  ", format := "ttc", quality := 10 }
        = Except.error (formatErr "ttc") :=
  C3_validation_order.1 { font_name := "  ", format := "ttc", quality := 10 }
    (by decide)

/-- C6: for every valid compress request the returned ratio exceeds 1 and
the compressed size is below the 280 KB baseline. -/
theorem C6_ratio_gt_one (req : CompressRequest)
    (hf : req.format ∈ validFormats) (hq : req.quality ≤ 100)
    (hn : isBlank req.font_name = false) :
    ∀ resp : CompressResponse, compress req = Except.ok resp →
      1 < resp.ratio ∧ resp.compressed_size_kb < 280 := by
  intro resp hresp
  rw [compress_ok req hf hq hn, Except.ok.injEq] at hresp
  subst hresp
  obtain ⟨hrb0, hrb1⟩ := ratio_base_mem req.format hf
  have hq100 : (req.quality : ℚ) ≤ 100 := by exact_mod_cast hq
  have hq0 : (0 : ℚ) ≤ (req.quality : ℚ) := Nat.cast_nonneg _
  have hqf0 : 0 < 1/2 + ((req.quality : ℚ) / 100) * (1/2) := by positivity
  have hqf1 : 1/2 + ((req.quality : ℚ) / 100) * (1/2) ≤ 1 := by linarith
  have hlt :
      280 * ratio_base req.format * (1/2 + ((req.quality : ℚ) / 100) * (1/2)) < 280 := by
    nlinarith [mul_le_mul hrb1 hqf1 hqf0.le (by norm_num : (0:ℚ) ≤ 9/10)]
  have hpos :
      0 < 280 * ratio_base req.format * (1/2 + ((req.quality : ℚ) / 100) * (1/2)) := by
    positivity
  exact ⟨(one_lt_div hpos).mpr hlt, hlt⟩

/-- C6 witness: the theorem applied at format ttf, quality 100, the least
compressive valid combination; the ratio still exceeds 1. -/
theorem C6_ratio_gt_one_witness :
    ∃ resp : CompressResponse,
      compress { font_name := "Inter", format := "ttf", quality := 100 }
          = Except.ok resp ∧
        1 < resp.ratio ∧ resp.compressed_size_kb < 280 := by
  obtain h := compress_ok { font_name := "Inter", format := "ttf", quality := 100 }
    (by decide) (by decide) (by decide)
  exact ⟨_, h, C6_ratio_gt_one _ (by decide) (by decide) (by decide) _ h⟩

/-- C2 counterexample: on input characters "aaa" the code returns
character_count 3 — raw scalar occurrences — not 1 as the distinct-count
claim demands. -/
theorem C2_counterexample :
    (subset { font_name := "Inter", characters := "aaa", format := "woff2" }).map
        (fun r => r.character_count) = Except.ok 3 ∧ (3 : Nat) ≠ 1 := by
  refine ⟨?_, by decide⟩
  rw [subset_ok _ (by decide) (by decide)]
  rfl

/-- C2 amended: for every valid subset request, character_count equals the
number of Unicode scalar values of the characters field counted with
multiplicity (duplicates are NOT collapsed), with a floor of 1; in
particular "aaa" yields 3. -/
theorem C2_character_count (req : SubsetRequest)
    (hf : req.format ∈ validFormats) (hn : isBlank req.font_name = false) :
    ∃ resp : SubsetResponse, subset req = Except.ok resp ∧
      resp.character_count = max req.characters.toList.length 1 := by
  exact ⟨_, subset_ok req hf hn, rfl⟩

/-- C2 witness: the amended theorem applied at characters "aaa". -/
theorem C2_character_count_witness :
    ∃ resp : SubsetResponse,
      subset { font_name := "Inter", characters := "aaa", format := "woff2" }
          = Except.ok resp ∧
        resp.character_count = max ("aaa".toList.length) 1 :=
  C2_character_count
    { font_name := "Inter", characters := "aaa", format := "woff2" }
    (by decide) (by decide)

/-- C4: for every valid subset request, original_glyph_count = 8500,
subset_glyph_count = min(character_count, 8500), and subset_size_kb =
280 · (subset_glyph_count / 8500) · format_ratio with format_ratio 0.35
exactly for woff2 and 0.55 for every other valid format. -/
theorem C4_subset_size_model (req : SubsetRequest)
    (hf : req.format ∈ validFormats) (hn : isBlank req.font_name = false) :
    ∃ resp : SubsetResponse, subset req = Except.ok resp ∧
      resp.original_glyph_count = 8500 ∧
      resp.subset_glyph_count = min resp.character_count 8500 ∧
      resp.subset_size_kb
        = 280 * ((resp.subset_glyph_count : ℚ) / 8500)
            * (if req.format = "woff2" then 35/100 else 55/100) := by
  refine ⟨_, subset_ok req hf hn, rfl, rfl, ?_⟩
  push_cast
  ring

/-- C4 witness: the theorem applied at characters "hello", format ttf. -/
theorem C4_subset_size_model_witness :
    ∃ resp : SubsetResponse,
      subset { font_name := "Fira Code", characters := "hello", format := "ttf" }
          = Except.ok resp ∧
        resp.original_glyph_count = 8500 ∧
        resp.subset_glyph_count = min resp.character_count 8500 ∧
        resp.subset_size_kb
          = 280 * ((resp.subset_glyph_count : ℚ) / 8500)
              * (if ("ttf" : String) = "woff2" then 35/100 else 55/100) :=
  C4_subset_size_model
    { font_name := "Fira Code", characters := "hello", format := "ttf" }
    (by decide) (by decide)

/-- C7: a subset request with an empty characters string is not rejected:
it succeeds with character_count 1 (not 0) and subset_glyph_count 1. -/
theorem C7_empty_characters (name fmt : String)
    (hf : fmt ∈ validFormats) (hn : isBlank name = false) :
    ∃ resp : SubsetResponse,
      subset { font_name := name, characters := "", format := fmt }
          = Except.ok resp ∧
        resp.character_count = 1 ∧ resp.subset_glyph_count = 1 := by
  exact ⟨_, subset_ok _ hf hn, rfl, rfl⟩

/-- C7 witness: the theorem applied at font "Inter", format woff2. -/
theorem C7_empty_characters_witness :
    ∃ resp : SubsetResponse,
      subset { font_name := "Inter", characters := "", format := "woff2" }
          = Except.ok resp ∧
        resp.character_count = 1 ∧ resp.subset_glyph_count = 1 :=
  C7_empty_characters "Inter" "woff2" (by decide) (by decide)

/-- C5: the analyze descriptor is chosen by case-insensitive substring
matching on the lowercased identifier in first-match-wins order — "noto",
then "fira", then "inter", then the default — with the fixed descriptor
contents of each branch; an identifier containing several keys, such as
"noto-fira", resolves to the "noto" branch. -/
theorem C5_classifier_branches :
    (∀ req : AnalyzeRequest, isBlank req.font_name = false →
        strContains (toLowerStr req.font_name) "noto" = true →
        analyze req = Except.ok
          { font_name := req.font_name, glyph_count := 22080, format := "otf"
            size_kb := 4200, unicode_ranges := ["U+0000-00FF", "U+0100-024F"]
            has_variable_axes := false, color_palettes := 0
            opentype_features := ["kern", "liga", "calt"] }) ∧
    (∀ req : AnalyzeRequest, isBlank req.font_name = false →
        strContains (toLowerStr req.font_name) "noto" = false →
        strContains (toLowerStr req.font_name) "fira" = true →
        analyze req = Except.ok
          { font_name := req.font_name, glyph_count := 1617, format := "ttf"
            size_kb := 132, unicode_ranges := ["U+0000-00FF", "U+0100-024F"]
            has_variable_axes := false, color_palettes := 0
            opentype_features := ["kern", "liga", "dlig", "calt"] }) ∧
    (∀ req : AnalyzeRequest, isBlank req.font_name = false →
        strContains (toLowerStr req.font_name) "noto" = false →
        strContains (toLowerStr req.font_name) "fira" = false →
        strContains (toLowerStr req.font_name) "inter" = true →
        analyze req = Except.ok
          { font_name := req.font_name, glyph_count := 3990, format := "otf"
            size_kb := 94, unicode_ranges := ["U+0000-00FF", "U+0100-024F"]
            has_variable_axes := true, color_palettes := 0
            opentype_features := ["kern", "ss01", "cv01"] }) ∧
    (∀ req : AnalyzeRequest, isBlank req.font_name = false →
        strContains (toLowerStr req.font_name) "noto" = false →
        strContains (toLowerStr req.font_name) "fira" = false →
        strContains (toLowerStr req.font_name) "inter" = false →
        analyze req = Except.ok
          { font_name := req.font_name, glyph_count := 1200, format := "ttf"
            size_kb := 80, unicode_ranges := ["U+0000-00FF", "U+0100-024F"]
            has_variable_axes := false, color_palettes := 0
            opentype_features := ["kern"] }) ∧
    analyze { font_name := "noto-fira" } = Except.ok
      { font_name := "noto-fira", glyph_count := 22080, format := "otf"
        size_kb := 4200, unicode_ranges := ["U+0000-00FF", "U+0100-024F"]
        has_variable_axes := false, color_palettes := 0
        opentype_features := ["kern", "liga", "calt"] } := by
  refine ⟨?_, ?_, ?_, ?_, ?_⟩
  · intro req hn h
    rw [analyze_ok req hn, classify_noto _ h]
  · intro req hn h1 h2
    rw [analyze_ok req hn, classify_fira _ h1 h2]
  · intro req hn h1 h2 h3
    rw [analyze_ok req hn, classify_inter _ h1 h2 h3]
  · intro req hn h1 h2 h3
    rw [analyze_ok req hn, classify_default _ h1 h2 h3]
  · rw [analyze_ok _ (by decide), classify_noto _ (by decide)]

/-- C5 witness: the "noto" branch applied at "Noto Sans JP Bold", whose
lowercase form contains "noto" although the raw identifier does not. -/
theorem C5_classifier_branches_witness :
    analyze { font_name := "Noto Sans JP Bold" } = Except.ok
      { font_name := "Noto Sans JP Bold", glyph_count := 22080, format := "otf"
        size_kb := 4200, unicode_ranges := ["U+0000-00FF", "U+0100-024F"]
        has_variable_axes := false, color_palettes := 0
        opentype_features := ["kern", "liga", "calt"] } :=
  C5_classifier_branches.1 { font_name := "Noto Sans JP Bold" }
    (by decide) (by decide)

/-- C8: download URLs are deterministic functions of the slug — the
lowercased identifier with spaces replaced by hyphens — with compress
using /cdn/fonts/slug/slug.format and subset using
/cdn/fonts/slug/subset.format; "Open Sans" slugs to "open-sans". -/
theorem C8_download_urls :
    (∀ req : CompressRequest, ∀ resp : CompressResponse,
        compress req = Except.ok resp →
        resp.download_url
          = "/cdn/fonts/" ++ slug req.font_name ++ "/" ++ slug req.font_name
              ++ "." ++ req.format) ∧
    (∀ req : SubsetRequest, ∀ resp : SubsetResponse,
        subset req = Except.ok resp →
        resp.download_url
          = "/cdn/fonts/" ++ slug req.font_name ++ "/subset." ++ req.format) ∧
    slug "Open Sans" = "open-sans" ∧
    (compress { font_name := "Open Sans", format := "woff2", quality := 80 }).map
        (fun r => r.download_url)
      = Except.ok "/cdn/fonts/open-sans/open-sans.woff2" := by
  refine ⟨?_, ?_, by decide, ?_⟩
  · intro req resp hresp
    rw [compress] at hresp
    split at hresp
    · exact absurd hresp (by simp)
    · split at hresp
      · exact absurd hresp (by simp)
      · split at hresp
        · exact absurd hresp (by simp)
        · simp only [Except.ok.injEq] at hresp
          subst hresp
          rfl
  · intro req resp hresp
    rw [subset] at hresp
    split at hresp
    · exact absurd hresp (by simp)
    · split at hresp
      · exact absurd hresp (by simp)
      · simp only [Except.ok.injEq] at hresp
        subst hresp
        rfl
  · rw [compress_ok _ (by decide) (by decide) (by decide)]
    rfl

/-- C8 witness: the compress URL template applied at "Open Sans" with
format woff2. -/
theorem C8_download_urls_witness :
    ∃ resp : CompressResponse,
      compress { font_name := "Open Sans", format := "woff2", quality := 80 }
          = Except.ok resp ∧
        resp.download_url = "/cdn/fonts/open-sans/open-sans.woff2" := by
  refine ⟨_, compress_ok _ (by decide) (by decide) (by decide), ?_⟩
  rw [C8_download_urls.1 _ _
    (compress_ok { font_name := "Open Sans", format := "woff2", quality := 80 }
      (by decide) (by decide) (by decide))]
  rfl

/-- C9: the catalog operation takes no input, never fails (it is a total
constant), and always returns exactly four entries in the fixed order
Inter, Noto Sans JP, Roboto, Fira Code with fixed contents. -/
theorem C9_catalog_fixed :
    catalog.length = 4 ∧
    catalog.map (fun e => (e.id, e.family, e.variant, e.license))
      = [("inter", "Inter", "Regular", "OFL-1.1"),
         ("noto-sans-jp", "Noto Sans JP", "Regular", "OFL-1.1"),
         ("roboto", "Roboto", "Bold", "Apache-2.0"),
         ("fira-code", "Fira Code", "Regular", "OFL-1.1")] ∧
    catalog.map (fun e => (e.glyph_count, e.size_kb))
      = [(3990, 94), (22080, 4200), (1294, 68), (1617, 132)] :=
  ⟨rfl, rfl, rfl⟩

/-- C10: an identifier containing "roboto" and no higher-priority key is
analyzed with the default descriptor (glyph_count 1200, format "ttf",
size 80 KB), while the catalog's Roboto entry carries glyph_count 1294
and size 68 KB — the classifier and the catalog disagree on a font the
catalog lists. -/
theorem C10_roboto_mismatch :
    (∀ req : AnalyzeRequest, isBlank req.font_name = false →
        strContains (toLowerStr req.font_name) "roboto" = true →
        strContains (toLowerStr req.font_name) "noto" = false →
        strContains (toLowerStr req.font_name) "fira" = false →
        strContains (toLowerStr req.font_name) "inter" = false →
        (analyze req).map (fun r => (r.glyph_count, r.format, r.size_kb))
          = Except.ok (1200, "ttf", 80)) ∧
    (catalog.map (fun e => (e.id, e.glyph_count, e.size_kb)))[2]?
      = some ("roboto", 1294, 68) ∧
    (1200 : Nat) ≠ 1294 ∧ ((80 : ℚ) ≠ 68) := by
  refine ⟨?_, rfl, by decide, by norm_num⟩
  intro req hn hr h1 h2 h3
  rw [analyze_ok req hn, classify_default _ h1 h2 h3]
  rfl

/-- C10 witness: the theorem applied at identifier "Roboto Mono". -/
theorem C10_roboto_mismatch_witness :
    (analyze { font_name := "Roboto Mono" }).map
        (fun r => (r.glyph_count, r.format, r.size_kb))
      = Except.ok (1200, "ttf", 80) :=
  C10_roboto_mismatch.1 { font_name := "Roboto Mono" }
    (by decide) (by decide) (by decide) (by decide) (by decide)

end FontEngine
